import Mathlib

/-!
Verification of the Resilix incident-response orchestrator against its
natural-language specification.

The Python sources are shallowly embedded: Python dictionaries that hold an
incident's durable state become Lean structures whose `Option` fields model
possibly-absent keys, Python truthiness is modelled by explicit `truthy*`
helpers, text scanning (`str.lower`, substring tests, `" ".join`) is modelled
on `List Char`, and the float-valued Sentinel scores — all of which are exact
multiples of 0.5 in the source — are modelled as natural numbers counting
half-units (
`score2 = 2 * weighted_score`), which is exact because every weight is an
integer and every increment is 0.5.
-/

namespace Resilix

/-! ### Text helpers (model of `str.lower`, substring search, `" ".join`, `str.strip`) -/

/-- Model of Python `str.lower` on a single ASCII character. -/
def asciiLowerChar (c : Char) : Char :=
  if 65 ≤ c.toNat ∧ c.toNat ≤ 90 then Char.ofNat (c.toNat + 32) else c

/-- Model of Python `str.lower` (the payloads under scan are ASCII). -/
def lowerChars (cs : List Char) : List Char := cs.map asciiLowerChar

/-- Model of `s.startswith(p)` on character lists. -/
def startsWith : List Char → List Char → Bool
  | [], _ => true
  | _ :: _, [] => false
  | p :: ps, c :: cs => p == c && startsWith ps cs

/-- Model of the Python substring test `pat in text`. -/
def hasSub (pat : List Char) : List Char → Bool
  | [] => startsWith pat []
  | c :: cs => startsWith pat (c :: cs) || hasSub pat cs

/-- Model of `" ".join(values)` for the already-filtered present values. -/
def joinSpace : List String → List Char
  | [] => []
  | [s] => s.data
  | s :: rest => s.data ++ ' ' :: joinSpace rest

/-- Model of Python `str.strip()`. -/
def trimChars (cs : List Char) : List Char :=
  ((cs.dropWhile Char.isWhitespace).reverse.dropWhile Char.isWhitespace).reverse

/-! ### Python truthiness helpers -/

/-- Python truthiness of an optional integer (`None` and `0` are falsy). -/
def truthyInt : Option Int → Bool
  | none => false
  | some n => n != 0

/-- Python truthiness of an optional string (`None` and `""` are falsy). -/
def truthyStr : Option String → Bool
  | none => false
  | some s => s != ""

/-! ### Data model

`RemediationRec` is the dictionary form of `RemediationResult`
(src/src/resilix/models/remediation.py) restricted to the fields the policy
engine and status projection read; a missing `pr_merged` / `success` key reads
as `false` exactly as Python's `dict.get(key, False)` does. -/

structure RemediationRec where
  success : Bool := false
  pr_number : Option Int := none
  pr_url : Option String := none
  pr_merged : Bool := false
deriving Repr, DecidableEq

/-- Incident session-state record: the fields of the stored state dictionary
read by `pr_merge_policy.py`, `incident_mapper.derive_status_fields` and
`api/incidents.approve_merge`. `Option` marks keys that may be absent;
`approval_required`/`approval_approved` are the `bool(...)` coercions of the
`approval` sub-dictionary with absent keys reading as `False`; the two
`policy_*` fields are the snapshot of the gate policy held in the state. -/
structure StateRec where
  remediation_result : Option RemediationRec := none
  ci_status : Option String := none
  codeowner_review_status : Option String := none
  approval_required : Bool := false
  approval_approved : Bool := false
  policy_require_ci_pass : Bool := true
  policy_require_codeowner_review : Bool := true
  jira_ticket_key : Option String := none
  target_repository : Option String := none
deriving Repr, DecidableEq

/-! ### Merge-gate policy (src/src/resilix/services/pr_merge_policy.py) -/

structure MergeDecision where
  eligible : Bool
  code : String
  message : String
deriving Repr, DecidableEq

/-- Model of `_has_pr` (pr_merge_policy.py lines 15-20): Python truthiness of
`remediation.get("pr_number") or remediation.get("pr_url")`. -/
def hasPr (r : RemediationRec) : Bool := truthyInt r.pr_number || truthyStr r.pr_url

/-- Model of `_has_pr` applied to a possibly-absent remediation record. -/
def hasPrOpt : Option RemediationRec → Bool
  | none => false
  | some r => hasPr r

/-- Model of `_is_merged` (pr_merge_policy.py lines 23-28). -/
def isMergedOpt : Option RemediationRec → Bool
  | none => false
  | some r => r.pr_merged

/-- Model of `evaluate_approval_request` (pr_merge_policy.py lines 31-48).
The source reads only `remediation_result`, `ci_status` and `approval`; it
never reads the `policy` snapshot nor `codeowner_review_status`. -/
def evaluate_approval_request (st : StateRec) : MergeDecision :=
  if !(hasPrOpt st.remediation_result) then
    ⟨false, "pr_not_created", "PR not created"⟩
  else if isMergedOpt st.remediation_result then
    ⟨false, "already_merged", "PR already merged"⟩
  else if st.ci_status ≠ some "ci_passed" then
    ⟨false, "ci_not_passed", "Merge approval requires CI passed"⟩
  else if !st.approval_required then
    ⟨false, "approval_not_required", "Approval is not required for this incident"⟩
  else if st.approval_approved then
    ⟨false, "already_approved", "PR already approved"⟩
  else
    ⟨true, "eligible", "PR can be approved and merged"⟩

/-- Model of `apply_approval_and_merge` (pr_merge_policy.py lines 70-85)
restricted to the state fields of `StateRec`: stamps approval, replaces a
missing remediation dictionary by a fresh one, and sets `pr_merged = True`. -/
def apply_approval_and_merge (st : StateRec) : StateRec :=
  let r : RemediationRec :=
    match st.remediation_result with
    | some r => { r with pr_merged := true }
    | none => { success := true, pr_merged := true }
  { st with approval_approved := true, remediation_result := some r }

/-! ### GitHub merge call (src/src/resilix/services/integrations/github_direct.py) -/

/-- Outcome of an HTTP-backed provider call: a returned value or a raised
exception. -/
inductive MergeCallOutcome where
  | ok (merged : Bool)
  | raised
deriving Repr, DecidableEq

/-- Model of `httpx.Response.raise_for_status()`: raises exactly when the
response status is not a 2xx success status. -/
def raiseForStatusRaises (status : Nat) : Bool := !(200 ≤ status && status ≤ 299)

/-- Model of `GithubDirectProvider.merge_pr` (github_direct.py lines 457-470)
as a function of the upstream HTTP status code: 200/201 return `True`,
405/409/422 return `False`, any other status first passes through
`raise_for_status()` and only then falls through to `return False`. -/
def merge_pr (status : Nat) : MergeCallOutcome :=
  if status == 200 || status == 201 then .ok true
  else if status == 405 || status == 409 || status == 422 then .ok false
  else if raiseForStatusRaises status then .raised
  else .ok false

/-! ### Status projection (src/src/resilix/services/incident_mapper.py) -/

inductive IncidentStatus where
  | processing | awaiting_approval | merging | resolved | failed
deriving Repr, DecidableEq

inductive ApprovalStatus where
  | pending | approved | not_required
deriving Repr, DecidableEq

inductive PRStatus where
  | not_created | pending_ci | ci_passed | merged
deriving Repr, DecidableEq

/-- Model of `derive_status_fields` (incident_mapper.py lines 177-218); the
missing `ci_status` key defaults to "pending" as in
`state.get("ci_status", "pending")`. -/
def derive_status_fields (st : StateRec) : IncidentStatus × ApprovalStatus × PRStatus :=
  match st.remediation_result with
  | none => (.processing, .not_required, .not_created)
  | some r =>
    if !(hasPr r) then
      if r.success then (.resolved, .not_required, .not_created)
      else (.processing, .not_required, .not_created)
    else if r.pr_merged then (.resolved, .approved, .merged)
    else if st.ci_status.getD "pending" == "ci_passed" then
      if st.approval_required && !st.approval_approved then
        (.awaiting_approval, .pending, .ci_passed)
      else if st.approval_required && st.approval_approved then
        (.merging, .approved, .ci_passed)
      else (.merging, .not_required, .ci_passed)
    else if st.approval_required then (.processing, .pending, .pending_ci)
    else (.processing, .not_required, .pending_ci)

/-! ### Sentinel triage (src/src/resilix/services/sentinel_service.py)

Webhook payloads are modelled structurally: an alert contributes the four
label/annotation fields the scanner joins; a log entry contributes the three
text fields plus the numeric `metadata.queue_depth` (`none` when absent or
non-numeric). All float scores in the source are exact multiples of 0.5, so
they are modelled as natural numbers counting half-units (`score2` is twice
the Python `weighted_score`). -/

structure AlertLabels where
  alertname : Option String := none
  severity : Option String := none
  service : Option String := none
  endpoint : Option String := none
deriving Repr, DecidableEq

structure AlertAnnotations where
  summary : Option String := none
  description : Option String := none
deriving Repr, DecidableEq

structure Alert where
  status : Option String := none
  labels : AlertLabels := {}
  annotations : AlertAnnotations := {}
deriving Repr, DecidableEq

structure LogEntry where
  event : Option String := none
  message : Option String := none
  component : Option String := none
  queue_depth : Option Int := none
deriving Repr, DecidableEq

structure Payload where
  alerts : List Alert := []
  log_entries : List LogEntry := []
  signals : List String := []
  status : Option String := none
  labels : AlertLabels := {}
  annotations : AlertAnnotations := {}
deriving Repr, DecidableEq

/-- Model of `_first_alert` (sentinel_service.py lines 35-41) restricted to the
labels that `evaluate_alert` reads from it: the first alert when the alerts
list is non-empty, otherwise the payload itself. -/
def firstAlertLabels (p : Payload) : AlertLabels :=
  match p.alerts with
  | a :: _ => a.labels
  | [] => p.labels

/-- Lowered joined text of an alert's scanned fields (sentinel_service.py
lines 57-66): alertname, severity label, summary, description. -/
def alertText (a : Alert) : List Char :=
  lowerChars (joinSpace (List.filterMap id
    [a.labels.alertname, a.labels.severity, a.annotations.summary, a.annotations.description]))

/-- Lowered joined text of a log entry's scanned fields (sentinel_service.py
lines 77-81): event, message, component. -/
def logText (e : LogEntry) : List Char :=
  lowerChars (joinSpace (List.filterMap id [e.event, e.message, e.component]))

/-- The error-rate pattern test from sentinel_service.py line 67. -/
def errPat (t : List Char) : Bool :=
  hasSub "error".data t || hasSub "5xx".data t || hasSub "higherrorrate".data t

/-- The flapping pattern test from sentinel_service.py lines 69 and 85. -/
def flapPat (t : List Char) : Bool :=
  hasSub "flapping".data t || hasSub "alternating".data t

/-- The timeout pattern test from sentinel_service.py lines 71 and 89. -/
def timeoutPat (t : List Char) : Bool :=
  hasSub "timeout".data t || hasSub "timed out".data t

/-- The queue-depth test from sentinel_service.py line 87. -/
def bigQueue (e : LogEntry) : Bool :=
  match e.queue_depth with
  | some q => q > 200000
  | none => false

structure SignalHits where
  error_rate_high : Nat := 0
  health_flapping : Nat := 0
  backlog_growth : Nat := 0
  dependency_timeout : Nat := 0
deriving Repr, DecidableEq

/-- Contribution of one raw entry of the payload's `signals` list
(sentinel_service.py lines 50-52): the counter named by the entry is
incremented when it names a known signal, each entry matching at most one. -/
def addSignal (h : SignalHits) (s : String) : SignalHits :=
  { h with
    error_rate_high := h.error_rate_high + (if s == "error_rate_high" then 1 else 0),
    health_flapping := h.health_flapping + (if s == "health_flapping" then 1 else 0),
    backlog_growth := h.backlog_growth + (if s == "backlog_growth" then 1 else 0),
    dependency_timeout := h.dependency_timeout + (if s == "dependency_timeout" then 1 else 0) }

/-- Contribution of one alert (sentinel_service.py lines 54-72): three
independent pattern tests — error, flapping, timeout — over the alert's
joined label/annotation text. -/
def addAlertHits (h : SignalHits) (a : Alert) : SignalHits :=
  { h with
    error_rate_high := h.error_rate_high + (if errPat (alertText a) then 1 else 0),
    health_flapping := h.health_flapping + (if flapPat (alertText a) then 1 else 0),
    dependency_timeout := h.dependency_timeout + (if timeoutPat (alertText a) then 1 else 0) }

/-- Contribution of one log entry (sentinel_service.py lines 74-90): three
independent tests — the flapping pattern, the queue-depth bound and the
timeout pattern — over the entry's joined text and metadata. -/
def addLogHits (h : SignalHits) (e : LogEntry) : SignalHits :=
  { h with
    health_flapping := h.health_flapping + (if flapPat (logText e) then 1 else 0),
    backlog_growth := h.backlog_growth + (if bigQueue e then 1 else 0),
    dependency_timeout := h.dependency_timeout + (if timeoutPat (logText e) then 1 else 0) }

/-- Model of `_collect_signal_hits` (sentinel_service.py lines 44-92): the raw
`signals` list, then every alert, then every log entry. -/
def collect_signal_hits (p : Payload) : SignalHits :=
  p.log_entries.foldl addLogHits (p.alerts.foldl addAlertHits (p.signals.foldl addSignal {}))

/-- Doubled contribution of one signal to the weighted score
(sentinel_service.py lines 95-102): weight plus 0.5 per repeat hit, capped at
three repeats, all doubled to stay integral. -/
def signalContribution2 (weight2 : Nat) (count : Nat) : Nat :=
  if count == 0 then 0 else weight2 + min (count - 1) 3

/-- Model of `_score_signals` over the signal weights of sentinel_service.py
lines 11-16, returning twice the Python float score. -/
def score_signals2 (h : SignalHits) : Nat :=
  signalContribution2 6 h.error_rate_high + signalContribution2 6 h.health_flapping
    + signalContribution2 4 h.backlog_growth + signalContribution2 4 h.dependency_timeout

/-- Twice the weighted score of a payload. -/
def payloadScore2 (p : Payload) : Nat := score_signals2 (collect_signal_hits p)

inductive Severity where
  | critical | high | medium | low
deriving Repr, DecidableEq

/-- Model of the `Severity(...)` enum constructor (models/alert.py): parses the
four enum values, `none` on a `ValueError`. -/
def parseSeverity (s : String) : Option Severity :=
  if s == "critical" then some .critical
  else if s == "high" then some .high
  else if s == "medium" then some .medium
  else if s == "low" then some .low
  else none

/-- The strictness order of sentinel_service.py lines 118-123. -/
def sevOrder : Severity → Nat
  | .low => 1
  | .medium => 2
  | .high => 3
  | .critical => 4

/-- The score-only severity thresholds of sentinel_service.py lines 106-112,
on doubled scores: `≥ 6 → critical`, `≥ 4 → high`, `≥ 2 → medium`, else low. -/
def severityFromScoreOnly (score2 : Nat) : Severity :=
  if score2 ≥ 12 then .critical
  else if score2 ≥ 8 then .high
  else if score2 ≥ 4 then .medium
  else .low

/-- Model of `_severity_from_score` (sentinel_service.py lines 105-126): the
fallback label is lowered and parsed; an unparseable label yields the
score-derived severity; a parsed label wins only when strictly stricter. -/
def severity_from_score (score2 : Nat) (fallback : String) : Severity :=
  let from_score := severityFromScoreOnly score2
  match parseSeverity ⟨lowerChars fallback.data⟩ with
  | none => from_score
  | some from_label =>
      if sevOrder from_label > sevOrder from_score then from_label else from_score

/-- The severity returned by `evaluate_alert` (sentinel_service.py line 144)
when no fallback hook rewrites it: the score-derived severity against the
first alert's severity label, which defaults to `"high"` when absent
(`labels.get("severity", "high")`). -/
def sentinelSeverity (p : Payload) : Severity :=
  severity_from_score (payloadScore2 p) ((firstAlertLabels p).severity.getD "high")

/-- The `is_actionable` flag of `evaluate_alert` (sentinel_service.py line
145) when no fallback hook rewrites it: score at least 2, or alert status
(defaulting to `"firing"` when the payload has no top-level status) lowered
equals `"firing"`. -/
def sentinelIsActionable (p : Payload) : Bool :=
  payloadScore2 p ≥ 4 || lowerChars (p.status.getD "firing").data == "firing".data

/-! ### Jira ticket transitions
(src/src/resilix/services/integrations/jira_direct.py) -/

/-- One entry of the Jira transitions list: the transition name, the
destination status name (`transition["to"]["name"]`, `""` when absent as with
`dict.get(..., "")`) and the transition id. -/
structure JTransition where
  name : String := ""
  toName : String := ""
  id : String := ""
deriving Repr, DecidableEq

/-- Normalization applied to names and targets throughout
`JiraDirectProvider`: `str(...).strip().lower()`. -/
def normToken (s : String) : List Char := lowerChars (trimChars s.data)

/-- Model of `JiraDirectProvider._alias_set` (jira_direct.py lines 195-199):
the user-supplied aliases for the normalized target plus the normalized target
itself. The alias map is taken in its parsed form (keys and values already
normalized by `_parse_aliases`). -/
def aliasSet (aliases : List (List Char × List (List Char))) (target : String) : List (List Char) :=
  let key := normToken target
  (match aliases.lookup key with
   | some vs => vs
   | none => []) ++ [key]

/-- Model of `JiraDirectProvider._select_transition` (jira_direct.py lines
201-216): scan the transitions, breaking at the first whose name matches an
alias, remembering the first whose destination status name matches; prefer
the name match. -/
def selectTransition (targets : List (List Char)) : List JTransition → Option JTransition → Option JTransition
  | [], statusMatch => statusMatch
  | t :: rest, statusMatch =>
    if targets.contains (normToken t.name) then some t
    else if targets.contains (normToken t.toName) && statusMatch == none then
      selectTransition targets rest (some t)
    else selectTransition targets rest statusMatch

/-- Result record returned by `transition_ticket`. -/
structure TransitionRecord where
  ok : Bool
  from_status : Option String
  to_status : String
  applied_transition_id : Option String
  reason : Option String
deriving Repr, DecidableEq

/-- Outcome of a `transition_ticket` call: a returned record or a raised
exception. -/
inductive TicketCallOutcome where
  | returned (r : TransitionRecord)
  | raised (msg : String)
deriving Repr, DecidableEq

/-- An ASCII apostrophe, written by code point. -/
def squote : String := String.singleton (Char.ofNat 39)

/-- The no-match reason string of jira_direct.py line 114. -/
def noTransitionReason (target : String) : String :=
  "No transition found for target status " ++ squote ++ target ++ squote

/-- Model of `JiraDirectProvider.transition_ticket` (jira_direct.py lines
82-148). `httpExc` models an exception raised by the HTTP calls inside the
`try` block (`some msg` when one raises); the branch it selects mirrors the
`except` clause: re-raise when `strict`, else a failure record. When the HTTP
calls succeed, a target with no matching transition returns the no-match
failure record — the `return` statement inside the `try` block raises
nothing, so the `strict` flag plays no part on that path. -/
def transition_ticket (strict : Bool) (aliases : List (List Char × List (List Char)))
    (target : String) (currentStatus : Option String) (transitions : List JTransition)
    (httpExc : Option String) : TicketCallOutcome :=
  match httpExc with
  | some msg =>
    if strict then .raised msg
    else .returned ⟨false, none, target, none, some msg⟩
  | none =>
    match selectTransition (aliasSet aliases target) transitions none with
    | none => .returned ⟨false, currentStatus, target, none, some (noTransitionReason target)⟩
    | some t => .returned ⟨true, currentStatus, target, some t.id, none⟩

/-! ### Pipeline event order
(src/src/resilix/services/orchestrator.py, `apply_direct_integrations`) -/

/-- Timeline event types appended by the integration stage, abstracted from
`TimelineEventType` (models/timeline.py) to those the stage emits. -/
inductive PipelineEvent where
  | ticket_created
  | ticket_moved_todo
  | ticket_moved_in_progress
  | ticket_moved_in_review
  | ticket_transition_failed
  | pr_created
deriving Repr, BEq, DecidableEq

/-- Timeline events appended by one `_transition_jira_ticket` call
(orchestrator.py lines 702-740): nothing when the ticket key is missing, the
moved event on success, `ticket_transition_failed` on a failure record. -/
def transitionEvents (keyPresent ok : Bool) (moved : PipelineEvent) : List PipelineEvent :=
  if !keyPresent then []
  else if ok then [moved]
  else [.ticket_transition_failed]

/-- Provider-call outcomes a run of `apply_direct_integrations` observes. -/
structure DirectRunOutcome where
  ticketOk : Bool := true
  ticketKeyPresent : Bool := true
  todoOk : Bool := true
  inProgressOk : Bool := true
  inReviewOk : Bool := true
  prOk : Bool := true
  prHasRef : Bool := true
deriving Repr, DecidableEq

/-- The sequence of timeline events appended by `apply_direct_integrations`
(orchestrator.py lines 602-682) as the source orders them: `ticket_created`
on ticket success, then the TODO, IN_PROGRESS and IN_REVIEW transition
cascade (lines 624-644), then — only afterwards — `pr_created` when PR
creation succeeds with a PR reference (lines 657-666). A ticket-provider
failure returns early with no events appended. -/
def apply_direct_integrations_events (o : DirectRunOutcome) : List PipelineEvent :=
  if !o.ticketOk then []
  else
    [.ticket_created]
      ++ transitionEvents o.ticketKeyPresent o.todoOk .ticket_moved_todo
      ++ transitionEvents o.ticketKeyPresent o.inProgressOk .ticket_moved_in_progress
      ++ transitionEvents o.ticketKeyPresent o.inReviewOk .ticket_moved_in_review
      ++ (if !o.prOk then [] else if o.prHasRef then [.pr_created] else [])

/-! ### Merge-gate fetch after PR creation
(orchestrator.py lines 684-698 in `apply_direct_integrations` and lines
940-956 in `MockRunner.run` — both share this logic verbatim) -/

/-- Result of `get_merge_gate_status`. -/
structure GateStatus where
  ci_passed : Bool
  codeowner_reviewed : Bool
deriving Repr, DecidableEq

/-- The `(ci_status, codeowner_review_status)` pair written from an optional
gate result: fetched values map through the two conditionals, an absent gate
writes `("ci_passed", "pending")`. -/
def gateFields : Option GateStatus → String × String
  | some g =>
    ((if g.ci_passed then "ci_passed" else "pending"),
     (if g.codeowner_reviewed then "approved" else "pending"))
  | none => ("ci_passed", "pending")

/-- Model of the post-PR gate step: the gate is fetched only when the
remediation's `pr_number` and the signature's `target_repository` are both
truthy (`if remediation.pr_number and signature_model.target_repository`);
`fetched` is the gate result that call would return. -/
def integration_gate_update (prNumber : Option Int) (targetRepo : Option String)
    (fetched : GateStatus) : String × String :=
  if truthyInt prNumber && truthyStr targetRepo then gateFields (some fetched)
  else gateFields none

/-! ### Approve-merge endpoint (src/src/resilix/api/incidents.py lines 37-137) -/

/-- HTTP-level response of the approve-merge endpoint, restricted to the
branches reachable once the incident exists and the provider resolves. -/
inductive ApproveResponse where
  | conflict (code : String)
  | success
deriving Repr, DecidableEq

/-- Environment of one approve-merge request: the resolved code-provider
label, the runtime gate policy re-read from settings, and the results the
provider calls would return. -/
structure ApproveEnv where
  provider_name : String := "github_mock"
  settings_require_ci_pass : Bool := true
  settings_require_codeowner_review : Bool := true
  gate : GateStatus := ⟨true, true⟩
  merge_ok : Bool := true
deriving Repr, DecidableEq

/-- Outcome of an approve-merge request: the response, whether
`store.save` was reached (the source saves only after a fully successful
approval, incidents.py line 136), and the request-local state. -/
structure ApproveOutcome where
  response : ApproveResponse
  saved : Bool
  state : StateRec
deriving Repr, DecidableEq

/-- The policy refresh of incidents.py lines 44-49: the gate policy snapshot
is overwritten from runtime settings at every approval request. -/
def refresh_policy (env : ApproveEnv) (st : StateRec) : StateRec :=
  { st with policy_require_ci_pass := env.settings_require_ci_pass,
            policy_require_codeowner_review := env.settings_require_codeowner_review }

/-- The gate refresh of incidents.py lines 66-72: when the resolved code
provider is `github_api` and both the PR number and the signature's target
repository are truthy, the gate is fetched and `ci_status` /
`codeowner_review_status` rewritten from it. -/
def refresh_gate (env : ApproveEnv) (st : StateRec) : StateRec :=
  if env.provider_name == "github_api"
      && truthyInt (st.remediation_result.bind (·.pr_number))
      && truthyStr st.target_repository then
    { st with ci_status := some (gateFields (some env.gate)).1,
              codeowner_review_status := some (gateFields (some env.gate)).2 }
  else st

/-- Model of `approve_merge` (incidents.py lines 37-137) for an existing
incident: refresh the policy snapshot from runtime settings; refresh the gate
fields from the code provider; evaluate the approval policy and return 409
with the decision code when ineligible; call `merge_pr` (modelled by
`env.merge_ok`) when the PR number and repository are truthy and return 409
`merge_failed` when it reports failure; otherwise apply approval and merge
and save. The ticket DONE transition and timeline appends do not affect the
response or the fields of `StateRec` beyond those written here. -/
def approve_merge (env : ApproveEnv) (st : StateRec) : ApproveOutcome :=
  let st := refresh_gate env (refresh_policy env st)
  let decision := evaluate_approval_request st
  if !decision.eligible then ⟨.conflict decision.code, false, st⟩
  else
    let merge_ok :=
      if truthyInt (st.remediation_result.bind (·.pr_number)) && truthyStr st.target_repository then
        env.merge_ok
      else true
    if !merge_ok then ⟨.conflict "merge_failed", false, st⟩
    else ⟨.success, true, apply_approval_and_merge st⟩

/-! ### Claim-worded signal collection (for comparison with the source)

Claim C4 words the collection differently from the source: it scans only the
first alert but counts every substring signal from both the alert text and
the log entries. The next two definitions follow the claim's words, to be
compared against `collect_signal_hits`, which follows the source. -/

/-- Substring-signal counting over one source text as claim C4 words it:
every one of the error, flapping and timeout patterns counted on this text. -/
def claimedTextHits (h : SignalHits) (t : List Char) : SignalHits :=
  { h with
    error_rate_high := h.error_rate_high + (if errPat t then 1 else 0),
    health_flapping := h.health_flapping + (if flapPat t then 1 else 0),
    dependency_timeout := h.dependency_timeout + (if timeoutPat t then 1 else 0) }

/-- The signal-count computation exactly as claim C4 states it: scan the
first alert's labels/annotations and every log entry; each substring signal
counted across both sources; the queue-depth signal counted from the log
entries' numeric metadata. -/
def claimedSignalHits (p : Payload) : SignalHits :=
  let h0 : SignalHits :=
    match p.alerts with
    | a :: _ => claimedTextHits {} (alertText a)
    | [] => {}
  p.log_entries.foldl
    (fun h e =>
      let h := claimedTextHits h (logText e)
      { h with backlog_growth := h.backlog_growth + (if bigQueue e then 1 else 0) })
    h0

/-! ### Concrete inputs used by the counterexamples and witnesses -/

/-- A payload whose only content is a log entry whose message contains
"error". -/
def logErrorPayload : Payload := { log_entries := [{ message := some "error rate spiked" }] }

/-- A payload with two alerts where only the second alert's text matches the
error pattern. -/
def secondAlertErrorPayload : Payload :=
  { alerts := [{}, { labels := { alertname := some "HighErrorRate" } }] }

/-- The policy-engine test state of tests/test_services/test_pr_merge_policy.py
(`_state` with `codeowner_review_status="pending"`): PR 123 exists, CI passed,
code-owner review pending, both gate flags set, approval required and not yet
given. -/
def codeownerPendingState : StateRec :=
  { remediation_result := some
      { success := true, pr_number := some 123,
        pr_url := some "https://example.com/pr/123", pr_merged := false },
    ci_status := some "ci_passed",
    codeowner_review_status := some "pending",
    policy_require_ci_pass := true,
    policy_require_codeowner_review := true,
    approval_required := true,
    approval_approved := false }

/-- A state whose policy snapshot clears `require_ci_pass` while CI is still
pending (the situation of
tests/test_api/test_approve_merge.py::test_approve_merge_uses_current_runtime_gate_settings_over_stale_policy
after the runtime refresh turns both gate flags off). -/
def ciFlagOffState : StateRec :=
  { remediation_result := some
      { success := true, pr_number := some 123,
        pr_url := some "https://example.com/pr/123", pr_merged := false },
    ci_status := some "pending",
    codeowner_review_status := some "pending",
    policy_require_ci_pass := false,
    policy_require_codeowner_review := false,
    approval_required := true,
    approval_approved := false }

/-- A state whose remediation result is marked merged but carries neither a
PR number nor a PR URL. -/
def mergedWithoutRefState : StateRec :=
  { remediation_result := some { success := true, pr_merged := true },
    ci_status := some "ci_passed",
    approval_required := true,
    approval_approved := false }

/-- A state whose remediation result is merged and carries a PR reference. -/
def mergedWithRefState : StateRec :=
  { remediation_result := some
      { success := true, pr_number := some 77,
        pr_url := some "https://example.com/pr/77", pr_merged := true },
    ci_status := some "ci_passed",
    approval_required := true,
    approval_approved := true,
    target_repository := some "acme/resilix-demo-app" }

/-- Two Jira transitions, neither of whose name or destination status matches
the target "Blocked" (the shape served by the fake client of
tests/test_services/test_integration_providers.py). -/
def demoTransitions : List JTransition :=
  [{ name := "Start Progress", toName := "In Progress", id := "1" },
   { name := "Ready for Review", toName := "In Review", id := "2" }]

/-! ## Theorems -/

/-- C1: the claim states that `evaluate_approval_request` applies the CI
check only under `require_ci_pass` and the code-owner check only under
`require_codeowner_review`. The source does neither: it never reads the
policy snapshot or `codeowner_review_status`. On the repository's own test
state with a pending code-owner review it returns `eligible` where the test
(tests/test_services/test_pr_merge_policy.py, lines 45-48) demands
`codeowner_review_required`; and with `require_ci_pass` cleared it still
returns `ci_not_passed`, where
tests/test_api/test_approve_merge.py::test_approve_merge_uses_current_runtime_gate_settings_over_stale_policy
demands success. -/
theorem C1_gate_checks_code_bug :
    evaluate_approval_request codeownerPendingState =
      ⟨true, "eligible", "PR can be approved and merged"⟩ ∧
    evaluate_approval_request ciFlagOffState =
      ⟨false, "ci_not_passed", "Merge approval requires CI passed"⟩ := by decide

/-- C2: the claim states that in the per-incident pipeline PR creation
precedes the IN_REVIEW ticket transition. In `apply_direct_integrations` the
whole TODO → IN_PROGRESS → IN_REVIEW cascade runs before
`create_remediation_pr`: on a fully successful run the appended event
sequence places `ticket_moved_in_review` strictly before `pr_created`,
contradicting the claim and the repository's own tests
(tests/test_services/test_integration_executor.py line 187,
tests/test_acceptance/test_phase4_agent_logic.py line 95). TODO and
IN_PROGRESS do precede PR creation as claimed. -/
theorem C2_in_review_precedes_pr_created :
    apply_direct_integrations_events {} =
      [.ticket_created, .ticket_moved_todo, .ticket_moved_in_progress,
       .ticket_moved_in_review, .pr_created] ∧
    (apply_direct_integrations_events {}).indexOf .ticket_moved_in_review
      < (apply_direct_integrations_events {}).indexOf .pr_created := by decide

/-- C3 counterexample: with the strict flag set and no transition whose name
or destination matches the target, `transition_ticket` does not raise — it
returns the same failure record as the non-strict mode, refuting the claim
that the error propagates when strict is true. -/
theorem C3_counterexample :
    transition_ticket true [] "Blocked" (some "To Do") demoTransitions none =
      .returned ⟨false, some "To Do", "Blocked", none, some (noTransitionReason "Blocked")⟩ := by
  decide

/-- C5 counterexample: on a payload whose first alert carries no severity
label the returned severity is `high`, not the score-derived severity `low`:
the missing label defaults to `"high"` before the strictness comparison. -/
theorem C5_counterexample :
    sentinelSeverity {} = Severity.high ∧
    severityFromScoreOnly (payloadScore2 {}) = Severity.low ∧
    (firstAlertLabels {}).severity = none := by decide

/-- C6 counterexample: an incident whose remediation result is marked merged
but carries neither a PR number nor a PR URL is rejected with code
`pr_not_created`, not `already_merged` — the PR-existence check runs before
the merged check. -/
theorem C6_counterexample :
    (approve_merge {} mergedWithoutRefState).response = .conflict "pr_not_created" ∧
    "pr_not_created" ≠ "already_merged" := by decide

/-- C7 counterexample: upstream status 202 is neither 405, 409 nor 422, yet
`merge_pr` returns `False` for it instead of raising — `raise_for_status`
passes any 2xx status through to the final `return False`. This refutes both
"false exactly when 405/409/422" and "every other non-success status raises". -/
theorem C7_counterexample :
    merge_pr 202 = .ok false ∧
    202 ≠ 405 ∧ 202 ≠ 409 ∧ 202 ≠ 422 ∧ 202 ≠ 200 ∧ 202 ≠ 201 := by decide

/-- C7 amended: `merge_pr` returns true exactly on 200/201, returns false
exactly on 405/409/422 and on the remaining 2xx statuses, and raises exactly
on the non-2xx statuses other than 405/409/422. -/
theorem C7_merge_pr_amended (s : Nat) :
    (merge_pr s = .ok true ↔ (s = 200 ∨ s = 201)) ∧
    (merge_pr s = .ok false ↔
      (s = 405 ∨ s = 409 ∨ s = 422 ∨ (200 ≤ s ∧ s ≤ 299 ∧ s ≠ 200 ∧ s ≠ 201))) ∧
    (merge_pr s = .raised ↔
      (¬(200 ≤ s ∧ s ≤ 299) ∧ s ≠ 405 ∧ s ≠ 409 ∧ s ≠ 422)) := by
  simp only [merge_pr, raiseForStatusRaises]
  split_ifs with h1 h2 h3 <;> simp_all <;> omega

/-- C8: whenever the merge-gate fetch condition fails — the remediation has
no truthy PR number or the signature has no truthy target repository — the
integration stage writes `ci_status = "ci_passed"` and
`codeowner_review_status = "pending"` without any gate check, whatever the
gate would have answered. -/
theorem C8_gate_default_without_fetch (pn : Option Int) (repo : Option String)
    (g : GateStatus) (h : (truthyInt pn && truthyStr repo) = false) :
    integration_gate_update pn repo g = ("ci_passed", "pending") := by
  simp [integration_gate_update, h, gateFields]

/-- Witness for C8 at a remediation with no PR number: the hypothesis holds
and the conclusion evaluates as stated. -/
theorem C8_gate_default_without_fetch_witness :
    (truthyInt none && truthyStr (some "acme/resilix-demo-app")) = false ∧
    integration_gate_update none (some "acme/resilix-demo-app") ⟨false, false⟩ =
      ("ci_passed", "pending") :=
  ⟨by decide,
   C8_gate_default_without_fetch none (some "acme/resilix-demo-app") ⟨false, false⟩ (by decide)⟩

/-- C9: a state whose remediation result is present and successful but has
neither a PR number nor a PR URL projects to status `resolved` with
`pr_status = not_created` and `approval_status = not_required` — an incident
reports resolved although no PR was ever created. -/
theorem C9_success_without_pr_resolved (st : StateRec) (r : RemediationRec)
    (h1 : st.remediation_result = some r) (h2 : r.success = true)
    (h3 : r.pr_number = none) (h4 : r.pr_url = none) :
    derive_status_fields st = (.resolved, .not_required, .not_created) := by
  simp [derive_status_fields, h1, hasPr, truthyInt, truthyStr, h2, h3, h4]

/-- Witness for C9 at a concrete successful PR-less state. -/
theorem C9_success_without_pr_resolved_witness :
    derive_status_fields { remediation_result := some { success := true } } =
      (.resolved, .not_required, .not_created) :=
  C9_success_without_pr_resolved _ { success := true } rfl rfl rfl rfl

/-- C10: a payload with no top-level status field is always actionable: the
missing status defaults to `"firing"`, which satisfies the second disjunct of
the actionability test whatever the weighted score. -/
theorem C10_missing_status_actionable (p : Payload) (h : p.status = none) :
    sentinelIsActionable p = true := by
  rw [sentinelIsActionable, h]
  have hfiring : (lowerChars ((none : Option String).getD "firing").data == "firing".data) = true := by
    decide
  rw [hfiring, Bool.or_true]

/-- Witness for C10 at the empty payload, whose weighted score is zero. -/
theorem C10_missing_status_actionable_witness :
    sentinelIsActionable {} = true ∧ payloadScore2 {} = 0 :=
  ⟨C10_missing_status_actionable {} rfl, by decide⟩

/-- C3 amended: when no available transition's name or destination status
name matches the normalized target-status alias set, `transition_ticket`
returns a failure record (ok = false with a reason) regardless of the strict
flag; the strict flag governs only whether an exception raised by the
underlying HTTP calls propagates. -/
theorem C3_transition_no_match_amended :
    (∀ (strict : Bool) (aliases : List (List Char × List (List Char))) (target : String)
        (cur : Option String) (ts : List JTransition),
      selectTransition (aliasSet aliases target) ts none = none →
      transition_ticket strict aliases target cur ts none =
        .returned ⟨false, cur, target, none, some (noTransitionReason target)⟩) ∧
    (∀ (aliases : List (List Char × List (List Char))) (target : String)
        (cur : Option String) (ts : List JTransition) (msg : String),
      transition_ticket true aliases target cur ts (some msg) = .raised msg ∧
      transition_ticket false aliases target cur ts (some msg) =
        .returned ⟨false, none, target, none, some msg⟩) := by
  constructor
  · intro strict aliases target cur ts h
    simp [transition_ticket, h]
  · intro aliases target cur ts msg
    constructor <;> simp [transition_ticket]

/-- Witness for C3 amended at the strict provider and the fake-client
transition table with the unreachable target "Blocked". -/
theorem C3_transition_no_match_amended_witness :
    transition_ticket true [] "Blocked" (some "In Progress") demoTransitions none =
      .returned ⟨false, some "In Progress", "Blocked", none,
        some (noTransitionReason "Blocked")⟩ :=
  C3_transition_no_match_amended.1 true [] "Blocked" (some "In Progress") demoTransitions
    (by decide)

/-- Folding the raw signals list adds to each counter the number of entries
naming that signal. -/
theorem foldl_addSignal_eq (l : List String) (h : SignalHits) :
    l.foldl addSignal h =
      ⟨h.error_rate_high + l.countP (fun s => s == "error_rate_high"),
       h.health_flapping + l.countP (fun s => s == "health_flapping"),
       h.backlog_growth + l.countP (fun s => s == "backlog_growth"),
       h.dependency_timeout + l.countP (fun s => s == "dependency_timeout")⟩ := by
  induction l generalizing h with
  | nil => simp
  | cons s rest ih =>
    rw [List.foldl_cons, ih]
    simp only [addSignal, List.countP_cons, SignalHits.mk.injEq]
    refine ⟨?_, ?_, ?_, ?_⟩ <;> first | trivial | (split_ifs <;> omega)

/-- Folding the alerts adds to the error, flapping and timeout counters the
number of alerts whose text matches the respective pattern, and leaves the
backlog counter unchanged. -/
theorem foldl_addAlertHits_eq (l : List Alert) (h : SignalHits) :
    l.foldl addAlertHits h =
      ⟨h.error_rate_high + l.countP (fun a => errPat (alertText a)),
       h.health_flapping + l.countP (fun a => flapPat (alertText a)),
       h.backlog_growth,
       h.dependency_timeout + l.countP (fun a => timeoutPat (alertText a))⟩ := by
  induction l generalizing h with
  | nil => simp
  | cons a rest ih =>
    rw [List.foldl_cons, ih]
    simp only [addAlertHits, List.countP_cons, SignalHits.mk.injEq]
    refine ⟨?_, ?_, ?_, ?_⟩ <;> first | trivial | (split_ifs <;> omega)

/-- Folding the log entries adds to the flapping, backlog and timeout
counters the number of matching entries, and leaves the error counter
unchanged. -/
theorem foldl_addLogHits_eq (l : List LogEntry) (h : SignalHits) :
    l.foldl addLogHits h =
      ⟨h.error_rate_high,
       h.health_flapping + l.countP (fun e => flapPat (logText e)),
       h.backlog_growth + l.countP bigQueue,
       h.dependency_timeout + l.countP (fun e => timeoutPat (logText e))⟩ := by
  induction l generalizing h with
  | nil => simp
  | cons e rest ih =>
    rw [List.foldl_cons, ih]
    simp only [addLogHits, List.countP_cons, SignalHits.mk.injEq]
    refine ⟨?_, ?_, ?_, ?_⟩ <;> first | trivial | (split_ifs <;> omega)

/-- C4 counterexample: a log entry whose text contains "error" does not
increment `error_rate_high` (the log scan never tests the error pattern),
although the claim's computation counts it; and an error pattern in the
second alert is counted by the source (which scans every alert) although the
claim's first-alert-only computation does not. -/
theorem C4_counterexample :
    (collect_signal_hits logErrorPayload).error_rate_high = 0 ∧
    (claimedSignalHits logErrorPayload).error_rate_high = 1 ∧
    (collect_signal_hits secondAlertErrorPayload).error_rate_high = 1 ∧
    (claimedSignalHits secondAlertErrorPayload).error_rate_high = 0 := by decide

/-- C4 amended: the collected counts are exactly — error_rate_high: raw
signal entries plus alerts (all of them) matching the error pattern;
health_flapping: raw entries plus matching alerts plus matching log entries;
backlog_growth: raw entries plus log entries whose queue_depth exceeds
200000; dependency_timeout: raw entries plus matching alerts plus matching
log entries. Error text in log entries and queue depth in alerts are never
counted. -/
theorem C4_signal_counts_amended (p : Payload) :
    collect_signal_hits p =
      ⟨p.signals.countP (fun s => s == "error_rate_high")
         + p.alerts.countP (fun a => errPat (alertText a)),
       p.signals.countP (fun s => s == "health_flapping")
         + p.alerts.countP (fun a => flapPat (alertText a))
         + p.log_entries.countP (fun e => flapPat (logText e)),
       p.signals.countP (fun s => s == "backlog_growth")
         + p.log_entries.countP bigQueue,
       p.signals.countP (fun s => s == "dependency_timeout")
         + p.alerts.countP (fun a => timeoutPat (alertText a))
         + p.log_entries.countP (fun e => timeoutPat (logText e))⟩ := by
  simp only [collect_signal_hits, foldl_addSignal_eq, foldl_addAlertHits_eq,
    foldl_addLogHits_eq, SignalHits.mk.injEq]
  refine ⟨?_, ?_, ?_, ?_⟩ <;> omega

/-- C5 amended: the triage severity (without the ambiguity fallback) is the
score-derived severity, replaced by the label-supplied severity only when the
label parses and is strictly stricter — where a missing severity label on
the first alert defaults to "high" rather than leaving the score-derived
severity in place. -/
theorem C5_severity_amended :
    (∀ p : Payload, (firstAlertLabels p).severity = none →
      sentinelSeverity p =
        (if sevOrder .high > sevOrder (severityFromScoreOnly (payloadScore2 p)) then .high
         else severityFromScoreOnly (payloadScore2 p))) ∧
    (∀ (p : Payload) (s : String) (ls : Severity),
      (firstAlertLabels p).severity = some s →
      parseSeverity ⟨lowerChars s.data⟩ = some ls →
      sentinelSeverity p =
        (if sevOrder ls > sevOrder (severityFromScoreOnly (payloadScore2 p)) then ls
         else severityFromScoreOnly (payloadScore2 p))) := by
  constructor
  · intro p h
    have hp : parseSeverity ⟨lowerChars ((none : Option String).getD "high").data⟩ =
        some .high := by decide
    simp only [sentinelSeverity, severity_from_score, h, hp]
  · intro p s ls h hp
    simp only [sentinelSeverity, severity_from_score, h, Option.getD_some, hp]

/-- Witness for C5 amended at the empty payload: no severity label, score
zero, returned severity high. -/
theorem C5_severity_amended_witness : sentinelSeverity {} = Severity.high := by
  rw [C5_severity_amended.1 {} rfl]; decide

/-- A merged remediation record that still carries its PR reference makes
`evaluate_approval_request` answer `already_merged`, whatever the rest of the
state holds. -/
theorem evaluate_merged_with_pr (st : StateRec) (r : RemediationRec)
    (h1 : st.remediation_result = some r) (h2 : r.pr_merged = true)
    (h3 : hasPr r = true) :
    evaluate_approval_request st = ⟨false, "already_merged", "PR already merged"⟩ := by
  simp [evaluate_approval_request, hasPrOpt, isMergedOpt, h1, h2, h3]

/-- The policy refresh leaves the remediation record untouched. -/
theorem refresh_policy_remediation (env : ApproveEnv) (st : StateRec) :
    (refresh_policy env st).remediation_result = st.remediation_result := rfl

/-- The gate refresh leaves the remediation record untouched. -/
theorem refresh_gate_remediation (env : ApproveEnv) (st : StateRec) :
    (refresh_gate env st).remediation_result = st.remediation_result := by
  unfold refresh_gate
  split <;> rfl

/-- C6 amended: an approve-merge request on an incident whose remediation
result is merged and still carries its PR reference is rejected with 409
`already_merged`, and the rejected request never reaches the session-store
save — the persisted record is not rewritten. (Without a PR reference the
same request is rejected as `pr_not_created` instead; see the
counterexample.) -/
theorem C6_already_merged_amended (env : ApproveEnv) (st : StateRec) (r : RemediationRec)
    (h1 : st.remediation_result = some r) (h2 : r.pr_merged = true)
    (h3 : hasPr r = true) :
    (approve_merge env st).response = .conflict "already_merged" ∧
    (approve_merge env st).saved = false := by
  have hrem : (refresh_gate env (refresh_policy env st)).remediation_result = some r := by
    rw [refresh_gate_remediation, refresh_policy_remediation, h1]
  simp only [approve_merge]
  rw [evaluate_merged_with_pr _ r hrem h2 h3]
  simp

/-- Witness for C6 amended at a merged state holding PR 77. -/
theorem C6_already_merged_amended_witness :
    (approve_merge {} mergedWithRefState).response = .conflict "already_merged" ∧
    (approve_merge {} mergedWithRefState).saved = false :=
  C6_already_merged_amended {} mergedWithRefState
    ⟨true, some 77, some "https://example.com/pr/77", true⟩ rfl rfl (by decide)

end Resilix
